import Mathlib

set_option maxRecDepth 8192

/-!
Shallow embedding of the ingestion pipeline of the ai-recruiter-backend
repository: document text extraction, job-content acquisition, and
AI-based structuring, together with theorems settling the spec claims.

Strings manipulated by the JavaScript source are modelled as `String` /
`List Char`; external collaborators (the HTTP client, the headless
browser, the text-generation API, the JSON parser of the runtime, the
URL validator of the validation middleware) are modelled as explicit
oracle parameters, so every function below is a faithful translation of
the control flow in the source files.
-/

namespace AIRecruiter

/-! ## JavaScript string primitives used by the pipeline -/

/-- Whitespace class of the JavaScript regexp `\s` (ASCII part), as used
by `replace(/\s+/g, ' ')` and `String.prototype.trim` in the source. -/
def isWs (c : Char) : Bool :=
  c = ' ' || c = '\t' || c = '\n' || c = '\r' || c = '\x0b' || c = '\x0c'

/-- Auxiliary for `collapseWs`: the flag records whether the previous
character belonged to a whitespace run already emitted as one space. -/
def collapseWsAux : Bool → List Char → List Char
  | _, [] => []
  | prev, c :: rest =>
    if isWs c then
      if prev then collapseWsAux true rest
      else ' ' :: collapseWsAux true rest
    else c :: collapseWsAux false rest

/-- JavaScript `replace(/\s+/g, ' ')`: every maximal whitespace run
becomes a single space. -/
def collapseWs (l : List Char) : List Char := collapseWsAux false l

/-- Auxiliary for `collapseNl` (runs of newlines). -/
def collapseNlAux : Bool → List Char → List Char
  | _, [] => []
  | prev, c :: rest =>
    if c = '\n' then
      if prev then collapseNlAux true rest
      else '\n' :: collapseNlAux true rest
    else c :: collapseNlAux false rest

/-- JavaScript `replace(/\n+/g, '\n')`. -/
def collapseNl (l : List Char) : List Char := collapseNlAux false l

/-- JavaScript `String.prototype.trim`: drop whitespace at both ends. -/
def trimWs (l : List Char) : List Char :=
  ((l.dropWhile isWs).reverse.dropWhile isWs).reverse

/-- The `replace(/\s+/g, ' ').trim()` post-processing step used by both
the extractor and the acquisition code. -/
def normalizeWs (s : String) : String := String.mk (trimWs (collapseWs s.data))

/-- JavaScript `substring(0, 10000)` applied only when the content
exceeds 10000 characters (applicantController.analyzeJob fallback). -/
def truncate10000 (l : List Char) : List Char :=
  if 10000 < l.length then l.take 10000 else l

/-- ASCII lowering of one character, as JavaScript `toLowerCase` acts on
the ASCII extensions occurring here. -/
def lowerChar (c : Char) : Char :=
  if 'A' ≤ c ∧ c ≤ 'Z' then Char.ofNat (c.toNat + 32) else c

/-- JavaScript `String.prototype.toLowerCase` (ASCII fragment). -/
def jsToLower (s : String) : String := String.mk (s.data.map lowerChar)

/-- Node `path.extname` on the character list: the extension runs from
the last dot, and is empty when there is no dot or the dot is the first
character of the name. -/
def extnameData (l : List Char) : List Char :=
  let pre := (l.reverse.takeWhile (fun c => !(c = '.'))).reverse
  if pre.length + 1 < l.length then '.' :: pre else []

/-- Node `path.extname`. -/
def extname (s : String) : String := String.mk (extnameData s.data)

/-! ## JSON values (shape of the structured record) -/

/-- JSON values, the shape in which the model reply is parsed. -/
inductive Json where
  | null
  | bool (b : Bool)
  | num (n : Int)
  | str (s : String)
  | arr (xs : List Json)
  | obj (fields : List (String × Json))

/-- Field lookup in a JSON object literal. -/
def lookupField : List (String × Json) → String → Option Json
  | [], _ => none
  | (k, v) :: rest, key => if k = key then some v else lookupField rest key

/-- Field access on a JSON value (none on non-objects). -/
def Json.getField : Json → String → Option Json
  | .obj fs, k => lookupField fs k
  | _, _ => none

/-! ## Structured-data normalizer (utils/openaiProvider.js parseResume) -/

/-- Outcome of `generateContent`: the transport layer either yields the
model text or fails (timeout, non-2xx, malformed envelope all end in the
catch block or the invalid-format branch, producing a failure value). -/
inductive ApiResult where
  | ok (content : String)
  | fail (err : String)

/-- Result shape of `OpenAIProvider.parseResume`. -/
inductive ParseResumeResult where
  | failure (err : String)
  | success (data : Json)

/-- The degraded record built in the JSON-parse catch block of
`OpenAIProvider.parseResume`: the raw resume text plus empty contact,
experience, education and skills collections. -/
def fallbackParsedData (resumeText : String) : Json :=
  .obj [("extractedText", .str resumeText),
        ("sections", .obj [("contact", .obj []),
                           ("experience", .arr []),
                           ("education", .arr []),
                           ("skills", .arr [])])]

namespace OpenAIProvider

/-- Function `OpenAIProvider.parseResume` (utils/openaiProvider.js): forwards a
transport failure unchanged; on transport success runs `JSON.parse`
(oracle `jsonParse`) on the model text, returning the parsed data on
success and the degraded record on parse failure. -/
def parseResume (resumeText : String) (transport : ApiResult)
    (jsonParse : String → Option Json) : ParseResumeResult :=
  match transport with
  | .fail e => .failure e
  | .ok content =>
    match jsonParse content with
    | some j => .success j
    | none => .success (fallbackParsedData resumeText)

end OpenAIProvider

/-- The caller in applicantController.parseResume: a non-success result
from the provider is re-thrown (`throw new Error(parseResult.error)`),
a success result is used as the parsed content. -/
def controllerAfterParse : ParseResumeResult → Except String Json
  | .failure e => .error e
  | .success d => .ok d

/-! ## Theorems for C1 (transport failures) and C2 (degraded record) -/

/-- C1 counterexample: with the text-generation transport failing (for
example a timeout), `parseResume` returns the failure rather than a
degraded record, and the controller step propagates it as an error to
the caller — refuting the claim that transport failures never propagate. -/
theorem transport_failure_cex :
    OpenAIProvider.parseResume "John Doe resume text" (.fail "timeout of 30000ms exceeded")
        (fun _ => none) = .failure "timeout of 30000ms exceeded" ∧
    controllerAfterParse (OpenAIProvider.parseResume "John Doe resume text"
        (.fail "timeout of 30000ms exceeded") (fun _ => none)) =
      .error "timeout of 30000ms exceeded" :=
  ⟨rfl, rfl⟩

/-- C1 (amended): a transport-level failure of the text-generation call
is returned by `parseResume` as a failure value and is propagated (as a
thrown error) by the calling controller; only unparseable model text
takes the degraded path. -/
theorem transport_failure_propagates (text err : String) (p : String → Option Json) :
    OpenAIProvider.parseResume text (.fail err) p = .failure err ∧
    controllerAfterParse (OpenAIProvider.parseResume text (.fail err) p) = .error err :=
  ⟨rfl, rfl⟩

/-- C2: when the model's reply is not parseable as JSON, `parseResume`
returns (without failing) the degraded record whose extractedText equals
the input text and whose contact, experience, education and skills
collections are all empty. -/
theorem parse_failure_degraded_record (text content : String)
    (p : String → Option Json) (h : p content = none) :
    OpenAIProvider.parseResume text (.ok content) p = .success (fallbackParsedData text) ∧
    (fallbackParsedData text).getField "extractedText" = some (.str text) ∧
    ((fallbackParsedData text).getField "sections").bind (fun s => s.getField "contact") =
      some (.obj []) ∧
    ((fallbackParsedData text).getField "sections").bind (fun s => s.getField "experience") =
      some (.arr []) ∧
    ((fallbackParsedData text).getField "sections").bind (fun s => s.getField "education") =
      some (.arr []) ∧
    ((fallbackParsedData text).getField "sections").bind (fun s => s.getField "skills") =
      some (.arr []) := by
  refine ⟨?_, rfl, rfl, rfl, rfl, rfl⟩
  simp [OpenAIProvider.parseResume, h]

/-- C2 witness at a concrete unparseable reply. -/
theorem parse_failure_degraded_record_witness :
    OpenAIProvider.parseResume "Jane Roe, Engineer" (.ok "plain prose, not JSON")
        (fun _ => none) = .success (fallbackParsedData "Jane Roe, Engineer") ∧
    (fallbackParsedData "Jane Roe, Engineer").getField "extractedText" =
      some (.str "Jane Roe, Engineer") ∧
    ((fallbackParsedData "Jane Roe, Engineer").getField "sections").bind
      (fun s => s.getField "contact") = some (.obj []) ∧
    ((fallbackParsedData "Jane Roe, Engineer").getField "sections").bind
      (fun s => s.getField "experience") = some (.arr []) ∧
    ((fallbackParsedData "Jane Roe, Engineer").getField "sections").bind
      (fun s => s.getField "education") = some (.arr []) ∧
    ((fallbackParsedData "Jane Roe, Engineer").getField "sections").bind
      (fun s => s.getField "skills") = some (.arr []) :=
  parse_failure_degraded_record "Jane Roe, Engineer" "plain prose, not JSON"
    (fun _ => none) rfl

/-! ## Job-content acquisition (applicantController.analyzeJob and
aiController.extractJobFromUrl) -/

/-- A fetched HTML page, abstracted: the visible body text after script
and style removal, and the concatenated text of the elements matched by
each cheerio selector (none when the selector matches nothing). -/
structure Page where
  bodyText : List Char
  selectorText : String → Option (List Char)

/-- Oracles for the effectful collaborators of `analyzeJob`: the result
of `scrapeJobWithPlaywright`, the result of the fallback `axios.get`
plus cheerio load, and the `aiProvider.analyzeJob` call. -/
structure JobAnalysisEnv where
  playwright : Except String (List Char)
  fetched : Except String Page
  aiAnalyze : List Char → Except String String

/-- Request body of the job-analysis endpoint. -/
structure AnalyzeJobRequest where
  jobUrl : Option String
  jobText : Option String

/-- JavaScript truthiness of a possibly-absent string field: absent and
empty are both falsy. -/
def truthy : Option String → Bool
  | none => false
  | some s => s != ""

/-- Network-touching operations performed by `analyzeJob`, in order. -/
inductive NetEvent where
  | playwrightNav
  | httpGet
  | aiCall
deriving DecidableEq

/-- Outcome of the job-analysis endpoint: a `ValidationError`, a generic
thrown error, or the success payload (analysis text plus the preview of
the original content). -/
inductive AnalyzeResult where
  | vErr (msg : String)
  | appErr (msg : String)
  | ok (analysis : String) (preview : String)
deriving DecidableEq

/-- Preview `jobContent.substring(0, 500) + "..."` from the success response. -/
def previewOf (content : List Char) : String := String.mk (content.take 500) ++ "..."

/-- The tail of `analyzeJob` after the job content is settled: the AI
call and the response assembly. -/
def runAnalysis (env : JobAnalysisEnv) (content : List Char) (evs : List NetEvent) :
    AnalyzeResult × List NetEvent :=
  match env.aiAnalyze content with
  | .ok a => (.ok a (previewOf content), evs ++ [.aiCall])
  | .error e => (.appErr e, evs ++ [.aiCall])

/-- Content produced by the cheerio fallback inside `analyzeJob`:
`$('body').text().replace(/\s+/g, ' ').trim()` capped at 10000. -/
def fallbackContent (page : Page) : List Char :=
  truncate10000 (trimWs (collapseWs page.bodyText))

/-- Controller `applicantController.analyzeJob`, with the network collaborators as
oracles and the network calls recorded in order: reject when neither
input is truthy; when a URL is present try Playwright, then the cheerio
fallback, and wrap a double failure as a `ValidationError`; otherwise
use the pasted text; finally run the AI analysis. -/
def analyzeJob (req : AnalyzeJobRequest) (env : JobAnalysisEnv) :
    AnalyzeResult × List NetEvent :=
  if !truthy req.jobUrl && !truthy req.jobText then
    (.vErr "Either job URL or job text is required", [])
  else if truthy req.jobUrl then
    match env.playwright with
    | .ok t => runAnalysis env t [.playwrightNav]
    | .error _ =>
      match env.fetched with
      | .ok page => runAnalysis env (fallbackContent page) [.playwrightNav, .httpGet]
      | .error _ =>
        (.vErr "Failed to extract content from the provided URL", [.playwrightNav, .httpGet])
  else
    runAnalysis env (req.jobText.getD "").data []

/-- The fixed ordered selector list of `extractJobFromUrl`
(aiController.js). -/
def jobSelectors : List String :=
  ["[class*=\"job\"]", "[class*=\"position\"]", "[class*=\"description\"]",
   "[id*=\"job\"]", "[id*=\"position\"]", "[id*=\"description\"]",
   "main", "article", ".content", "#content"]

/-- Body-text cleanup of `extractJobFromUrl`:
`replace(/\s+/g, ' ').replace(/\n+/g, '\n').trim()`. -/
def cleanupJobText (l : List Char) : List Char := trimWs (collapseNl (collapseWs l))

/-- The selector loop of `extractJobFromUrl`: the first matched selector
whose trimmed text exceeds 200 characters replaces the current content
and stops the scan; otherwise the scan continues. -/
def scanSelectors (page : Page) : List String → List Char → List Char
  | [], content => content
  | s :: rest, content =>
    match page.selectorText s with
    | some t =>
      if 200 < (trimWs t).length then trimWs t else scanSelectors page rest content
    | none => scanSelectors page rest content

/-- Function `extractJobFromUrl` (aiController.js) on a successfully fetched
page: cleaned whole-body text, then the selector-priority scan. No
length cap is applied on this path. -/
def extractJobFromUrl (page : Page) : List Char :=
  scanSelectors page jobSelectors (cleanupJobText page.bodyText)

/-- Spec-side reading of the selector heuristic: the text contributed by
one selector when it matches and its trimmed text exceeds 200
characters. -/
def qualifyingText (page : Page) (s : String) : Option (List Char) :=
  match page.selectorText s with
  | some t => if 200 < (trimWs t).length then some (trimWs t) else none
  | none => none

/-! ## Route-level validation (middleware/validation.js plus
applicantRoutes.js) -/

/-- The sanitizer effect of the `jobText` validator chain (`trim()`). -/
def sanitizeReq (req : AnalyzeJobRequest) : AnalyzeJobRequest :=
  ⟨req.jobUrl, req.jobText.map (fun t => String.mk (trimWs t.data))⟩

/-- Validator `validateJobAnalysis` (middleware/validation.js): `jobUrl` is
optional but must satisfy the `isURL` check of the validator library
(oracle) when present; `jobText` is optional but its trimmed length must
lie in [50, 10000] when present. Returns true when some validation
failed. -/
def validateJobAnalysisErrors (isURL : String → Bool) (req : AnalyzeJobRequest) : Bool :=
  (match req.jobUrl with
   | none => false
   | some u => !(isURL u)) ||
  (match req.jobText with
   | none => false
   | some t =>
     let t' := trimWs t.data
     !(decide (50 ≤ t'.length) && decide (t'.length ≤ 10000)))

/-- The `/ai/analyze-job` route: `validateJobAnalysis` then
`handleValidationErrors` (which throws `ValidationError('Validation
failed')`) run before the controller, so a validation failure produces
the error with no network call; otherwise the controller runs on the
sanitized body. -/
def analyzeJobRoute (isURL : String → Bool) (req : AnalyzeJobRequest)
    (env : JobAnalysisEnv) : AnalyzeResult × List NetEvent :=
  if validateJobAnalysisErrors isURL req then (.vErr "Validation failed", [])
  else analyzeJob (sanitizeReq req) env

/-! ## Concrete fixtures shared by witnesses and counterexamples -/

/-- An environment in which every collaborator fails (never reached in
the validation-error scenarios that use it). -/
def envDown : JobAnalysisEnv :=
  ⟨.error "browser down", .error "network down", fun _ => .error "model down"⟩

/-- Body text returned by the successful Playwright scrape fixture. -/
def jobBodyChars : List Char :=
  "Senior platform engineer role, remote, building developer tooling".data

/-- Environment in which Playwright succeeds and the model answers. -/
def envOkPw : JobAnalysisEnv :=
  ⟨.ok jobBodyChars, .error "unused", fun _ => .ok "Analysis summary"⟩

/-- A request carrying both a job URL and pasted job text. -/
def reqBoth : AnalyzeJobRequest :=
  ⟨some "https://jobs.example.com/123", some "Pasted job description"⟩

/-- A page with no matching selectors. -/
def pageMain : Page :=
  ⟨"Staff engineer position at ExampleCorp".data, fun _ => none⟩

/-- A page with the same body text but different selector results. -/
def pageAlt : Page :=
  ⟨"Staff engineer position at ExampleCorp".data, fun _ => some "x".data⟩

/-- Whether an outcome is a ValidationError. -/
def isVErr : AnalyzeResult → Bool
  | .vErr _ => true
  | _ => false

/-- Helper: with a truthy URL the controller takes the URL branch, whose
outcomes never include the missing-input ValidationError. -/
theorem urlBranchNotRequiredVErr (req : AnalyzeJobRequest) (env : JobAnalysisEnv)
    (h : truthy req.jobUrl = true) :
    (analyzeJob req env).1 ≠ .vErr "Either job URL or job text is required" := by
  unfold analyzeJob
  rw [h]
  simp only [Bool.not_true, Bool.false_and, Bool.false_eq_true, if_false, if_true]
  cases env.playwright with
  | ok t =>
    unfold runAnalysis
    cases h2 : env.aiAnalyze t <;> simp [h2]
  | error e =>
    cases env.fetched with
    | ok page =>
      unfold runAnalysis
      cases h2 : env.aiAnalyze (fallbackContent page) <;> simp [h2]
    | error e2 => simp

/-! ## Theorems for C3 and C10 (input-presence handling) -/

/-- C3 counterexample: a request supplying both the URL and pasted text
is not rejected — with a working scraper and model it produces a
successful analysis, not a ValidationError. -/
theorem both_inputs_accepted_cex :
    isVErr (analyzeJob reqBoth envOkPw).1 = false ∧
    (analyzeJob reqBoth envOkPw).1 = .ok "Analysis summary" (previewOf jobBodyChars) := by
  constructor <;> rfl

/-- C3 (amended): supplying neither url nor pasted text yields the
ValidationError before any network call; supplying both is accepted —
the missing-input ValidationError is not raised. -/
theorem job_input_presence (req req2 : AnalyzeJobRequest) (env env2 : JobAnalysisEnv)
    (h1 : truthy req.jobUrl = false) (h2 : truthy req.jobText = false)
    (h3 : truthy req2.jobUrl = true) (h4 : truthy req2.jobText = true) :
    analyzeJob req env = (.vErr "Either job URL or job text is required", []) ∧
    (analyzeJob req2 env2).1 ≠ .vErr "Either job URL or job text is required" := by
  refine ⟨?_, urlBranchNotRequiredVErr req2 env2 h3⟩
  simp [analyzeJob, h1, h2]

/-- C3 witness: the neither-input request is rejected with no network
event, and the both-input request is not rejected. -/
theorem job_input_presence_witness :
    analyzeJob ⟨none, none⟩ envDown = (.vErr "Either job URL or job text is required", []) ∧
    (analyzeJob reqBoth envOkPw).1 ≠ .vErr "Either job URL or job text is required" :=
  job_input_presence ⟨none, none⟩ reqBoth envDown envOkPw rfl rfl rfl rfl

/-- C10: with a truthy job URL the request is processed exactly as if no
pasted text had been supplied (the pasted text has no effect on the
outcome), and the request is not rejected by the input-presence check. -/
theorem url_overrides_pasted_text (req : AnalyzeJobRequest) (env : JobAnalysisEnv)
    (h : truthy req.jobUrl = true) :
    analyzeJob req env = analyzeJob ⟨req.jobUrl, none⟩ env ∧
    (analyzeJob req env).1 ≠ .vErr "Either job URL or job text is required" := by
  refine ⟨?_, urlBranchNotRequiredVErr req env h⟩
  unfold analyzeJob
  simp [h]

/-- C10 witness at a request supplying both inputs. -/
theorem url_overrides_pasted_text_witness :
    analyzeJob reqBoth envOkPw = analyzeJob ⟨reqBoth.jobUrl, none⟩ envOkPw ∧
    (analyzeJob reqBoth envOkPw).1 ≠ .vErr "Either job URL or job text is required" :=
  url_overrides_pasted_text reqBoth envOkPw rfl

/-! ## Theorem for C8 (route-level URL validation) -/

/-- C8: a url input rejected by the syntactic URL validator of the
middleware produces the ValidationError with no network event — neither
acquisition strategy is attempted. -/
theorem url_validation_blocks_network (isURL : String → Bool) (req : AnalyzeJobRequest)
    (env : JobAnalysisEnv) (u : String) (h1 : req.jobUrl = some u)
    (h2 : isURL u = false) :
    analyzeJobRoute isURL req env = (.vErr "Validation failed", []) := by
  simp [analyzeJobRoute, validateJobAnalysisErrors, h1, h2]

/-- C8 witness for a concrete malformed URL. -/
theorem url_validation_blocks_network_witness :
    analyzeJobRoute (fun _ => false) ⟨some "not a url at all", none⟩ envDown =
      (.vErr "Validation failed", []) :=
  url_validation_blocks_network (fun _ => false) ⟨some "not a url at all", none⟩
    envDown "not a url at all" rfl rfl

/-! ## Theorems for C6 (selector scan) and C7 (length cap) -/

/-- The selector loop computes the first qualifying selector text, with
the initial content as default. -/
theorem scanFindSome (page : Page) (ss : List String) (c : List Char) :
    scanSelectors page ss c = (List.findSome? (qualifyingText page) ss).getD c := by
  induction ss with
  | nil => rfl
  | cons s rest ih =>
    simp only [scanSelectors, List.findSome?]
    cases hs : page.selectorText s with
    | none => simp [qualifyingText, hs, ih]
    | some t =>
      by_cases hl : 200 < (trimWs t).length
      · simp [qualifyingText, hs, hl]
      · simp [qualifyingText, hs, hl, ih]

/-- C6 (amended): the selector-priority scan is performed by the
single-strategy fetch-and-scrape acquisition `extractJobFromUrl` — its
result is the first selector text qualifying over 200 characters, with
the cleaned whole-body text as default — while the fetch-and-scrape
fallback of the job-analysis path performs no selector scan: its result
depends only on the whole-body text. -/
theorem selector_scan_located (page p1 p2 : Page) (h : p1.bodyText = p2.bodyText) :
    extractJobFromUrl page =
      (List.findSome? (qualifyingText page) jobSelectors).getD
        (cleanupJobText page.bodyText) ∧
    fallbackContent p1 = fallbackContent p2 :=
  ⟨scanFindSome page jobSelectors _, by simp [fallbackContent, h]⟩

/-- Character lists without whitespace are fixed by `dropWhile isWs`. -/
theorem dropWhileNoWs (l : List Char) (h : ∀ c ∈ l, isWs c = false) :
    l.dropWhile isWs = l := by
  cases l with
  | nil => rfl
  | cons a t =>
    rw [List.dropWhile_cons]
    simp [h a (List.mem_cons_self a t)]

/-- Character lists without whitespace are fixed by `trimWs`. -/
theorem trimWsNoWs (l : List Char) (h : ∀ c ∈ l, isWs c = false) :
    trimWs l = l := by
  unfold trimWs
  rw [dropWhileNoWs l h,
    dropWhileNoWs l.reverse (fun c hc => h c (List.mem_reverse.mp hc)),
    List.reverse_reverse]

/-- A matched block longer than the 200-character threshold. -/
def blockChars : List Char := List.replicate 201 'j'

/-- The list `blockChars` contains no whitespace. -/
theorem blockCharsNoWs : ∀ c ∈ blockChars, isWs c = false := by
  intro c hc
  have hj : c = 'j' := List.eq_of_mem_replicate hc
  rw [hj]
  decide

/-- A page whose job-class selector matches `blockChars` while the body
carries additional surrounding text. -/
def cexPage : Page :=
  ⟨blockChars ++ " and much surrounding page text".data,
   fun s => if s = "[class*=\"job\"]" then some blockChars else none⟩

/-- C6 counterexample: on the job-analysis fallback path a qualifying
job-class block (201 characters, over the threshold) does not replace
the whole-body text — the fallback returns the full body content, so
the selector heuristic is absent from that path. -/
theorem fallback_ignores_selectors_cex :
    cexPage.selectorText "[class*=\"job\"]" = some blockChars ∧
    200 < (trimWs blockChars).length ∧
    fallbackContent cexPage ≠ trimWs blockChars := by
  have ht : trimWs blockChars = blockChars := trimWsNoWs _ blockCharsNoWs
  refine ⟨rfl, ?_, ?_⟩
  · rw [ht]
    have h1 : blockChars.length = 201 := List.length_replicate 201 'j'
    omega
  · rw [ht]
    decide

/-- C6 witness: a page with no matching selector falls back to the
cleaned body text, and the job-analysis fallback depends only on the
body text. -/
theorem selector_scan_located_witness :
    extractJobFromUrl pageMain =
      (List.findSome? (qualifyingText pageMain) jobSelectors).getD
        (cleanupJobText pageMain.bodyText) ∧
    fallbackContent pageMain = fallbackContent pageAlt :=
  selector_scan_located pageMain pageMain pageAlt rfl

/-- C7 (amended): on the job-analysis fallback path acquired content is
capped at 10000 characters — over-long input yields exactly 10000
characters that are a prefix (suffix-drop) of the input, and the
truncation step is idempotent; the cap is exactly the truncation applied
to the normalized body text. -/
theorem fallback_truncation_cap (s u : List Char) (page : Page)
    (h : 10000 < s.length) :
    (truncate10000 s).length = 10000 ∧
    s = truncate10000 s ++ List.drop 10000 s ∧
    truncate10000 (truncate10000 u) = truncate10000 u ∧
    fallbackContent page = truncate10000 (trimWs (collapseWs page.bodyText)) := by
  refine ⟨?_, ?_, ?_, rfl⟩
  · simp [truncate10000, h, List.length_take]
    omega
  · simp [truncate10000, h]
  · by_cases hu : 10000 < u.length <;>
      simp [truncate10000, hu, List.length_take]

/-- Content of 10001 characters, above the cap. -/
def bigChars : List Char := List.replicate 10001 'j'

/-- C7 witness at the 10001-character content. -/
theorem fallback_truncation_cap_witness :
    (truncate10000 bigChars).length = 10000 ∧
    bigChars = truncate10000 bigChars ++ List.drop 10000 bigChars ∧
    truncate10000 (truncate10000 blockChars) = truncate10000 blockChars ∧
    fallbackContent pageMain = truncate10000 (trimWs (collapseWs pageMain.bodyText)) :=
  fallback_truncation_cap bigChars blockChars pageMain
    (by have h1 : bigChars.length = 10001 := List.length_replicate 10001 'j'; omega)

/-- The list `bigChars` contains no whitespace. -/
theorem bigCharsNoWs : ∀ c ∈ bigChars, isWs c = false := by
  intro c hc
  have hj : c = 'j' := List.eq_of_mem_replicate hc
  rw [hj]
  decide

/-- A page whose job-class selector matches the 10001-character block. -/
def bigPage : Page :=
  ⟨[], fun s => if s = "[class*=\"job\"]" then some bigChars else none⟩

/-- C7 counterexample: the `extractJobFromUrl` acquisition applies no
cap — a 10001-character qualifying block is returned whole, so acquired
content is not always capped at 10000 characters. -/
theorem extract_url_uncapped_cex :
    (extractJobFromUrl bigPage).length = 10001 ∧
    10000 < (extractJobFromUrl bigPage).length := by
  have ht : trimWs bigChars = bigChars := trimWsNoWs _ bigCharsNoWs
  have hlen : bigChars.length = 10001 := List.length_replicate 10001 'j'
  have hsel : bigPage.selectorText "[class*=\"job\"]" = some bigChars := rfl
  have hx : extractJobFromUrl bigPage = bigChars := by
    unfold extractJobFromUrl jobSelectors
    simp only [scanSelectors, hsel, ht, hlen]
    norm_num
  rw [hx, hlen]
  exact ⟨rfl, by norm_num⟩

/-! ## Document text extraction (applicantController.parseResume) -/

/-- Oracles for the PDF branch: whether `writeFileSync` succeeds, and
the `pdfParse` outcome (`ok ""` models a parse result whose `text` field
is falsy, triggering the no-content error). -/
structure PdfEnv where
  writeOk : Bool
  parsed : Except String String

/-- A try/finally block over an explicit file-system state (the list of
existing temp files): the finalizer runs on the state left by the body
whether the body succeeded or threw. -/
def tryFinallyFs {α : Type} (body : List String → Except String α × List String)
    (fin : List String → List String) (s : List String) :
    Except String α × List String :=
  let r := body s
  (r.1, fin r.2)

/-- The inner try-block of the PDF branch: write the buffer to the temp
file, run `pdfParse`, and fail when the parser throws or reports no
text. -/
def pdfBody (temp : String) (env : PdfEnv) (s : List String) :
    Except String String × List String :=
  if env.writeOk then
    let s1 := s ++ [temp]
    match env.parsed with
    | .ok t => if t = "" then (.error "No content found in PDF", s1) else (.ok t, s1)
    | .error m => (.error m, s1)
  else (.error "write failed", s)

/-- The finally-block: `unlinkSync` wrapped in its own try/catch, so a
missing file is swallowed (erase is a no-op when the file is absent). -/
def unlinkTemp (temp : String) (s : List String) : List String := s.erase temp

/-- The whole PDF branch: inner try/finally, then the outer catch that
rethrows any failure as `PDF extraction failed: ...`. -/
def pdfExtractFs (temp : String) (env : PdfEnv) (s : List String) :
    Except String String × List String :=
  let r := tryFinallyFs (pdfBody temp env) (unlinkTemp temp) s
  match r.1 with
  | .ok t => (.ok t, r.2)
  | .error m => (.error ("PDF extraction failed: " ++ m), r.2)

/-- Oracles for one extraction call: the temp-file name chosen for the
PDF branch, the PDF-branch oracles, the `mammoth.extractRawText` outcome
(used by both `.docx` and `.doc`), and the UTF-8 decoding of the buffer
for `.txt`. -/
structure ExtractEnv where
  pdfTemp : String
  pdfWriteOk : Bool
  pdfParsed : Except String String
  mammoth : Except String String
  txt : String

/-- The four extensions the dispatcher recognizes. -/
def supportedExts : List String := [".pdf", ".docx", ".doc", ".txt"]

/-- The extension dispatch of `parseResume`: four recognized branches,
otherwise the unsupported-type error. -/
def dispatchExtract (ext : String) (env : ExtractEnv) : Except String String :=
  if ext = ".pdf" then
    (pdfExtractFs env.pdfTemp ⟨env.pdfWriteOk, env.pdfParsed⟩ []).1
  else if ext = ".docx" then
    match env.mammoth with
    | .ok t => .ok t
    | .error m => .error ("DOCX extraction failed: " ++ m)
  else if ext = ".doc" then
    match env.mammoth with
    | .ok t => .ok t
    | .error m => .error ("DOC extraction failed: " ++ m)
  else if ext = ".txt" then .ok env.txt
  else .error ("Unsupported file type: " ++ ext)

/-- Step `const fileExtension = path.extname(filename).toLowerCase()`
followed by the dispatch. -/
def extractText (filename : String) (env : ExtractEnv) : Except String String :=
  dispatchExtract (jsToLower (extname filename)) env

/-- The extraction phase of `parseResume` including the post-step
(whitespace normalization, the 50-character minimum) and the outer catch
that prefixes `Failed to extract text from file: `. -/
def parseResumeExtract (filename : String) (env : ExtractEnv) : Except String String :=
  let inner : Except String String :=
    match extractText filename env with
    | .ok t =>
      let c := normalizeWs t
      if c = "" ∨ c.length < 50 then
        .error "Could not extract meaningful text from the file"
      else .ok c
    | .error m => .error m
  match inner with
  | .ok c => .ok c
  | .error m => .error ("Failed to extract text from file: " ++ m)

/-! ## Theorems for C4 (dispatch), C5 (minimum content), C9 (temp file) -/

/-- C4: dispatch is by the lowercased filename extension (so
case-insensitive) on exactly the four supported extensions; any other
extension yields the unsupported-type error, independent of every
extraction oracle (no extraction is attempted). -/
theorem extension_dispatch (filename fname2 : String) (env env' : ExtractEnv)
    (h : jsToLower (extname filename) ∉ supportedExts) :
    extractText filename env =
      .error ("Unsupported file type: " ++ jsToLower (extname filename)) ∧
    extractText filename env = extractText filename env' ∧
    extractText fname2 env = dispatchExtract (jsToLower (extname fname2)) env := by
  simp only [supportedExts, List.mem_cons, List.not_mem_nil, or_false, not_or] at h
  obtain ⟨h1, h2, h3, h4⟩ := h
  have key : ∀ e0 : ExtractEnv, extractText filename e0 =
      .error ("Unsupported file type: " ++ jsToLower (extname filename)) := by
    intro e0
    unfold extractText dispatchExtract
    rw [if_neg h1, if_neg h2, if_neg h3, if_neg h4]
  exact ⟨key env, (key env).trans (key env').symm, rfl⟩

/-- Extraction oracles for an intact document. -/
def envA : ExtractEnv :=
  ⟨"t1.pdf", true, .ok "parsed pdf text", .ok "parsed docx text", "plain text body"⟩

/-- Extraction oracles for a broken document. -/
def envB : ExtractEnv :=
  ⟨"t2.pdf", false, .error "broken pdf", .error "broken docx", "other text"⟩

/-- C4 witness: an unsupported uppercase extension is rejected
identically under both oracle environments, and a supported uppercase
extension dispatches through the lowercased extension. -/
theorem extension_dispatch_witness :
    extractText "photo.PNG" envA =
      .error ("Unsupported file type: " ++ jsToLower (extname "photo.PNG")) ∧
    extractText "photo.PNG" envA = extractText "photo.PNG" envB ∧
    extractText "resume.PDF" envA =
      dispatchExtract (jsToLower (extname "resume.PDF")) envA :=
  extension_dispatch "photo.PNG" "resume.PDF" envA envB (by decide)

/-- C5: when the chosen extraction strategy succeeds with text `t`, the
call fails with the insufficient-content error exactly when the
normalized text is shorter than 50 characters, and otherwise returns the
normalized text. -/
theorem min_content_threshold (filename : String) (env : ExtractEnv) (t : String)
    (h : extractText filename env = .ok t) :
    parseResumeExtract filename env =
      if (normalizeWs t).length < 50 then
        .error "Failed to extract text from file: Could not extract meaningful text from the file"
      else .ok (normalizeWs t) := by
  unfold parseResumeExtract
  rw [h]
  by_cases hl : (normalizeWs t).length < 50
  · simp [hl]
  · have hc : normalizeWs t ≠ "" := by
      intro he
      apply hl
      rw [he]
      decide
    simp [hl, hc]

/-- A plain-text fixture longer than 50 characters once normalized. -/
def txtFixture : String :=
  "A senior software engineer with ten years of experience in distributed systems."

/-- Extraction oracles delivering `txtFixture` for a `.txt` file. -/
def envTxt : ExtractEnv := ⟨"t3.pdf", true, .error "unused", .error "unused", txtFixture⟩

/-- C5 witness at a concrete text document. -/
theorem min_content_threshold_witness :
    parseResumeExtract "resume.txt" envTxt =
      if (normalizeWs txtFixture).length < 50 then
        .error "Failed to extract text from file: Could not extract meaningful text from the file"
      else .ok (normalizeWs txtFixture) :=
  min_content_threshold "resume.txt" envTxt txtFixture rfl

/-- C9: the PDF branch deletes its temp file on every exit path — the
final file-system state equals the initial one for every combination of
write success, parser failure, and empty-text failure — and the body
creates at most the single temp file. -/
theorem pdf_temp_cleanup (temp : String) (env : PdfEnv) (s : List String)
    (h : temp ∉ s) :
    (pdfExtractFs temp env s).2 = s ∧
    ((pdfBody temp env s).2 = s ∨ (pdfBody temp env s).2 = s ++ [temp]) := by
  have hbody : (pdfBody temp env s).2 = s ∨ (pdfBody temp env s).2 = s ++ [temp] := by
    unfold pdfBody
    by_cases hw : env.writeOk
    · cases hp : env.parsed with
      | ok t => by_cases ht : t = "" <;> simp [hw, hp, ht]
      | error m => simp [hw, hp]
    · simp [hw]
  refine ⟨?_, hbody⟩
  have hfin : (tryFinallyFs (pdfBody temp env) (unlinkTemp temp) s).2 = s := by
    unfold tryFinallyFs unlinkTemp
    dsimp only
    rcases hbody with hb | hb
    · rw [hb]
      exact List.erase_of_not_mem h
    · rw [hb, List.erase_append_right [temp] h, List.erase_cons_head temp [],
        List.append_nil]
  unfold pdfExtractFs
  cases hr : (tryFinallyFs (pdfBody temp env) (unlinkTemp temp) s).1 <;>
    simpa [hr] using hfin

/-- C9 witness: a successful extraction of a concrete PDF leaves no temp
file behind. -/
theorem pdf_temp_cleanup_witness :
    (pdfExtractFs "tmp_42.pdf" ⟨true, .ok "resume text"⟩ []).2 = [] ∧
    ((pdfBody "tmp_42.pdf" ⟨true, .ok "resume text"⟩ []).2 = [] ∨
     (pdfBody "tmp_42.pdf" ⟨true, .ok "resume text"⟩ []).2 = [] ++ ["tmp_42.pdf"]) :=
  pdf_temp_cleanup "tmp_42.pdf" ⟨true, .ok "resume text"⟩ [] (by simp)

end AIRecruiter
